import Mathlib

/-!
Shallow embedding of the ToadVault inventory microservice
(`InventoryProvider` in `api-inventory`, plus the Joi validation schemas
and the MongoDB calls it issues), together with proofs about its
behaviour.

A store's MongoDB collection `inventory_store_${storeId}` is modelled as a
`List Inventory` in natural (insertion) order:
`findOne` returns the first document matching the filter, `insertOne`
appends, and `updateOne` with `$inc : { stock : d }` increments the stock
of the first matching document.  ObjectId values are modelled as the
strings the driver parses them from.  Timestamps are modelled as `Nat`,
JS numbers occurring only as data (prices) as `Rat`, and `stock` — which
the code only ever adds — as `Int`.
-/

namespace ToadVault

/-- The `Variant` entity of `inventory.entitie.ts`: `name`, `price`, `stock`. -/
structure Variant where
  name : String
  price : Rat
  stock : Rat
deriving DecidableEq

/-- The persisted per-store item record (`InventoryData` in
`inventory.entitie.ts`): `_id` is the Mongo-assigned record identifier,
absent until the driver assigns one. -/
structure Inventory where
  _id : Option String := none
  barcode : String
  name : String
  description : String
  price : Rat
  stock : Int
  supplier : String
  created_at : Nat
  updated_at : Nat
  variants : List Variant := []
deriving DecidableEq

/-- A store's collection state: documents in insertion (natural) order. -/
abbrev StoreCol := List Inventory

/-- `collection.findOne({ barcode: b })`: first document whose `barcode` is `b`. -/
def findOne : StoreCol → String → Option Inventory
  | [], _ => none
  | r :: rs, b => if r.barcode == b then some r else findOne rs b

/-- `collection.findOne({ _id: new ObjectId(s) })`: first document whose `_id` is `s`. -/
def findOneById : StoreCol → String → Option Inventory
  | [], _ => none
  | r :: rs, s => if r._id == some s then some r else findOneById rs s

/-- `collection.insertOne(doc)`: appends the document. -/
def insertOne (st : StoreCol) (item : Inventory) : StoreCol :=
  st ++ [item]

/-- `collection.updateOne({ barcode: b }, { $inc: { stock: d } })`:
increments `stock` of the first document whose `barcode` is `b`,
leaving every other field and every other document unchanged. -/
def updateOneIncStock : StoreCol → String → Int → StoreCol
  | [], _, _ => []
  | r :: rs, b, d =>
    if r.barcode == b then { r with stock := r.stock + d } :: rs
    else r :: updateOneIncStock rs b d

/-- Result shape of `addItem`. -/
structure AddResult where
  success : Bool
  message : String
deriving DecidableEq

/-- `InventoryProvider.addItem`: looks the barcode up in the store's
collection; inserts the payload verbatim when absent, otherwise issues a
single `$inc` update on `stock`; returns success in both branches. -/
def addItem (st : StoreCol) (itemData : Inventory) : StoreCol × AddResult :=
  match findOne st itemData.barcode with
  | none => (insertOne st itemData, ⟨true, "Item added successfully"⟩)
  | some _ =>
    (updateOneIncStock st itemData.barcode itemData.stock,
     ⟨true, "Item added successfully"⟩)

/-- The database: one collection per collection name. -/
def Db := String → StoreCol

/-- `db.collection(`inventory_store_${storeId}`)`: the per-store collection name. -/
def collectionName (storeId : String) : String :=
  "inventory_store_" ++ storeId

/-- Result shape of `getInventory`. -/
structure GetInventoryResult where
  success : Bool
  message : String
  products : List Inventory

/-- `InventoryProvider.getInventory`: `find().toArray()` over the store's
collection, always successful. -/
def getInventory (db : Db) (storeId : String) : GetInventoryResult :=
  { success := true
  , message := "Items retrieved successfully"
  , products := db (collectionName storeId) }

/-- Hex-digit test used by the driver's 24-character ObjectId check. -/
def isHexChar (c : Char) : Bool :=
  c.isDigit || (("a".front ≤ c) && (c ≤ "f".front)) || (("A".front ≤ c) && (c ≤ "F".front))

/-- `ObjectId.isValid` of the `mongodb` driver on a string input:
true exactly for 12-character strings and 24-character hex strings. -/
def objectIdIsValid (s : String) : Bool :=
  s.length == 12 || (s.length == 24 && s.data.all isHexChar)

/-- Result shape of `getItemByBarcodeOrID`. -/
structure GetItemResult where
  success : Bool
  message : String
  product : Option Inventory
deriving DecidableEq

/-- `InventoryProvider.getItemByBarcodeOrID`: inputs failing
`ObjectId.isValid` are looked up by `barcode`, the rest by `_id`; a miss
on either path returns `success := false` with message "Item not found". -/
def getItemByBarcodeOrID (st : StoreCol) (barcode_id : String) : GetItemResult :=
  if !(objectIdIsValid barcode_id) then
    match findOne st barcode_id with
    | none => ⟨false, "Item not found", none⟩
    | some p => ⟨true, "Item retrieved successfully", some p⟩
  else
    match findOneById st barcode_id with
    | none => ⟨false, "Item not found", none⟩
    | some p => ⟨true, "Item retrieved successfully", some p⟩

/-- Result shape of the validation methods. -/
structure ValidationResult where
  success : Bool
  message : Option String := none
deriving DecidableEq

/-- A raw inbound item payload before validation: each schema key may be
present (with a value of the schema's type) or absent.  A variant payload
carries the keys a client may send; the Joi item schema
`Joi.object({ name: Joi.string().required() })` permits only `name`. -/
structure VariantPayload where
  name : Option String := none
  price : Option Rat := none
  stock : Option Rat := none
deriving DecidableEq

/-- A raw inbound item payload, keyed as in the Joi schema of
`validateItemData`. -/
structure ItemPayload where
  barcode : Option String := none
  name : Option String := none
  description : Option String := none
  price : Option Rat := none
  stock : Option Rat := none
  supplier : Option String := none
  variants : Option (List VariantPayload) := none
deriving DecidableEq

/-- `/^\d+$/` of the barcode pattern (on a nonempty string). -/
def isDigitString (s : String) : Bool :=
  s.data.all Char.isDigit

/-- First Joi violation for one entry of the `variants` array:
`name` is required (and, as a Joi string, must be nonempty); any other
key is unknown to the item schema and is rejected by Joi's default
`allowUnknown := false`. -/
def variantError (i : Nat) (v : VariantPayload) : Option String :=
  match v.name with
  | none => some ("\"variants[" ++ toString i ++ "].name\" is required")
  | some n =>
    if n = "" then some ("\"variants[" ++ toString i ++ "].name\" is not allowed to be empty")
    else if v.price.isSome then some ("\"variants[" ++ toString i ++ "].price\" is not allowed")
    else if v.stock.isSome then some ("\"variants[" ++ toString i ++ "].stock\" is not allowed")
    else none

/-- First Joi violation over the `variants` array, indexed from `i`. -/
def variantsError (i : Nat) : List VariantPayload → Option String
  | [] => none
  | v :: vs =>
    match variantError i v with
    | some m => some m
    | none => variantsError (i + 1) vs

/-- The first violation Joi reports for the item schema of
`validateItemData` (`abortEarly` default): keys are checked in schema
order — `barcode` (required, nonempty, `/^\d+$/` with the custom message),
`name` (required, nonempty), `description` (optional, empty allowed),
`price` (required number), `stock` (required number), `supplier`
(optional, empty allowed), `variants` (optional array). -/
def itemDataError (itemData : ItemPayload) : Option String :=
  match itemData.barcode with
  | none => some "\"barcode\" is required"
  | some b =>
    if b = "" then some "\"barcode\" is not allowed to be empty"
    else if !(isDigitString b) then some "\x27barcode\x27 must be a string of numbers"
    else
      match itemData.name with
      | none => some "\"name\" is required"
      | some n =>
        if n = "" then some "\"name\" is not allowed to be empty"
        else if itemData.price.isNone then some "\"price\" is required"
        else if itemData.stock.isNone then some "\"stock\" is required"
        else
          match itemData.variants with
          | none => none
          | some vs => variantsError 0 vs

/-- `InventoryProvider.validateItemData`: wraps the schema's first
violation, if any, as `{ success := false, message }`, else succeeds. -/
def validateItemData (itemData : ItemPayload) : ValidationResult :=
  match itemDataError itemData with
  | some m => ⟨false, some m⟩
  | none => ⟨true, none⟩

/-- `InventoryProvider.instantiateItem`: builds the stored record from the
payload fields, setting `created_at` and `updated_at` both to the current
time (`new Date()` twice at the same instant, modelled as `now`). -/
def instantiateItem (barcode name description : String) (price : Rat)
    (stock : Int) (supplier : String) (now : Nat) (variants : List Variant) :
    Inventory :=
  { barcode := barcode
  , name := name
  , description := description
  , price := price
  , stock := stock
  , supplier := supplier
  , created_at := now
  , updated_at := now
  , variants := variants }

/-- A canonical catalog record, per spec section 6:
`lookup(barcode) -> {name, description} | not_found`. -/
structure CatalogRecord where
  name : String
  description : String

/-- Modelled from the spec: the catalog-seeding orchestration around
`addItem` (spec sections 4.1, 4.3 and 6) is not under `src/` — it lives in
the gateway, outside this repository snapshot.  Per the spec, when the
store has no local record for the barcode the Ledger consults the shared
catalog: on a hit it seeds the local record's `name`/`description` from
the catalog and proceeds with the increment semantics; on a miss or
lookup failure it proceeds using only payload-supplied fields. -/
def addItemWithCatalogSeed (lookup : String → Option CatalogRecord)
    (st : StoreCol) (p : Inventory) : StoreCol × AddResult :=
  match findOne st p.barcode with
  | some _ => addItem st p
  | none =>
    match lookup p.barcode with
    | some c => addItem st { p with name := c.name, description := c.description }
    | none => addItem st p

/-- The read phase of `addItem` as one atomic storage step: the
`findOne` that decides between the insert and the increment branch. -/
def addItemRead (st : StoreCol) (b : String) : Bool :=
  (findOne st b).isSome

/-- The write phase of `addItem` as one atomic storage step, applied to
whatever state the collection has reached by then, using the presence
bit observed at read time. -/
def addItemWrite (st : StoreCol) (p : Inventory) (present : Bool) : StoreCol :=
  if present then updateOneIncStock st p.barcode p.stock
  else insertOne st p

/-- Two concurrent `addItem` calls interleaved as read₁, read₂, write₁,
write₂: each call's `findOne` happens before either call's write. -/
def racedAddState (st : StoreCol) (p q : Inventory) : StoreCol :=
  let seen1 := addItemRead st p.barcode
  let seen2 := addItemRead st q.barcode
  addItemWrite (addItemWrite st p seen1) q seen2

/-- Number of documents in the collection carrying a given barcode. -/
def countBarcode (st : StoreCol) (b : String) : Nat :=
  (st.filter (fun r => r.barcode == b)).length

/-! ### Concrete sample data (spec section 8 scenario: store "7", item "1001") -/

/-- The stored record of the spec's scenario: barcode "1001", stock 10. -/
def sampleItem : Inventory :=
  { barcode := "1001"
  , name := "Cola"
  , description := ""
  , price := 2
  , stock := 10
  , supplier := ""
  , created_at := 100
  , updated_at := 100
  , variants := [] }

/-- The second add of the scenario: same barcode, stock 5, arriving later. -/
def sampleIncrement : Inventory :=
  { sampleItem with stock := 5, created_at := 999, updated_at := 999 }

/-- A fully valid raw payload (barcode "1234", empty description and supplier). -/
def validPayload : ItemPayload :=
  { barcode := some "1234"
  , name := some "Cola"
  , description := some ""
  , price := some 2
  , stock := some 10
  , supplier := some "" }

/-- A variant payload of the data model's full `Variant` shape. -/
def fullVariantPayload : VariantPayload :=
  { name := some "Small", price := some 1, stock := some 2 }

/-! ### Helper lemmas about the storage steps -/

theorem updateOneIncStock_length (st : StoreCol) (b : String) (d : Int) :
    (updateOneIncStock st b d).length = st.length := by
  induction st with
  | nil => rfl
  | cons r rs ih =>
    simp only [updateOneIncStock]
    split
    · simp
    · simp [ih]

theorem findOne_updateOneIncStock (st : StoreCol) (b : String) (d : Int)
    (r : Inventory) (h : findOne st b = some r) :
    findOne (updateOneIncStock st b d) b = some { r with stock := r.stock + d } := by
  induction st with
  | nil => simp [findOne] at h
  | cons a rs ih =>
    simp only [findOne, updateOneIncStock] at h ⊢
    by_cases hb : (a.barcode == b) = true
    · rw [if_pos hb] at h
      cases h
      simp [findOne, hb]
    · rw [if_neg hb] at h
      rw [if_neg hb, findOne, if_neg hb]
      exact ih h

theorem findOne_insertOne_self (st : StoreCol) (p : Inventory)
    (h : findOne st p.barcode = none) :
    findOne (insertOne st p) p.barcode = some p := by
  induction st with
  | nil => simp [insertOne, findOne]
  | cons a rs ih =>
    simp only [findOne] at h
    simp only [insertOne, List.cons_append, findOne]
    by_cases hb : (a.barcode == p.barcode) = true
    · rw [if_pos hb] at h
      exact absurd h (by simp)
    · rw [if_neg hb] at h
      rw [if_neg hb]
      exact ih h

/-! ### Claim C1 -/

/-- Claim C1: for every item payload and store state — if no record with
the payload's barcode exists in the store's partition, `addItem` inserts
exactly one new record (the payload verbatim, so its `stock` equals the
payload's `stock`) and that record is the one found afterwards; if such a
record exists, `addItem` leaves the record count unchanged and increments
the stored `stock` by the payload's `stock`, never replacing the record
(every other field is preserved); and it returns success in both
branches. -/
theorem addItem_insert_or_increment (st : StoreCol) (p : Inventory) :
    (findOne st p.barcode = none →
      (addItem st p).1 = st ++ [p] ∧
      (addItem st p).1.length = st.length + 1 ∧
      findOne (addItem st p).1 p.barcode = some p ∧
      (addItem st p).2.success = true) ∧
    (∀ r, findOne st p.barcode = some r →
      (addItem st p).1.length = st.length ∧
      findOne (addItem st p).1 p.barcode = some { r with stock := r.stock + p.stock } ∧
      (addItem st p).2.success = true) := by
  constructor
  · intro h
    refine ⟨by simp [addItem, h, insertOne], by simp [addItem, h, insertOne], ?_, by simp [addItem, h]⟩
    have := findOne_insertOne_self st p h
    simpa [addItem, h] using this
  · intro r h
    refine ⟨by simp [addItem, h, updateOneIncStock_length], ?_, by simp [addItem, h]⟩
    have := findOne_updateOneIncStock st p.barcode p.stock r h
    simpa [addItem, h] using this

/-- Witness for C1: both branches exercised on the spec's scenario —
insert into the empty store "7" collection, then increment by 5. -/
theorem addItem_insert_or_increment_witness :
    (addItem [] sampleItem).1 = [sampleItem] ∧
    (addItem [sampleItem] sampleIncrement).1.length = 1 ∧
    findOne (addItem [sampleItem] sampleIncrement).1 "1001" =
      some { sampleItem with stock := 15 } := by
  refine ⟨((addItem_insert_or_increment [] sampleItem).1 rfl).1, ?_, ?_⟩
  · exact ((addItem_insert_or_increment [sampleItem] sampleIncrement).2 sampleItem rfl).1
  · exact ((addItem_insert_or_increment [sampleItem] sampleIncrement).2 sampleItem rfl).2.1

/-! ### Claim C3 -/

/-- Claim C3: `getItemByBarcodeOrID` routes identifier-shaped inputs
(those passing `ObjectId.isValid`) to the `_id` lookup and every other
string to the `barcode` lookup; whenever the relevant lookup finds no
record it returns `success := false`, message "Item not found" and no
item, on either path.  (The function is total, so a not-found case never
throws.) -/
theorem getItem_routing_and_not_found (st : StoreCol) (s : String) :
    (objectIdIsValid s = false →
      getItemByBarcodeOrID st s =
        match findOne st s with
        | none => ⟨false, "Item not found", none⟩
        | some p => ⟨true, "Item retrieved successfully", some p⟩) ∧
    (objectIdIsValid s = true →
      getItemByBarcodeOrID st s =
        match findOneById st s with
        | none => ⟨false, "Item not found", none⟩
        | some p => ⟨true, "Item retrieved successfully", some p⟩) ∧
    (objectIdIsValid s = false → findOne st s = none →
      getItemByBarcodeOrID st s = ⟨false, "Item not found", none⟩) ∧
    (objectIdIsValid s = true → findOneById st s = none →
      getItemByBarcodeOrID st s = ⟨false, "Item not found", none⟩) := by
  refine ⟨?_, ?_, ?_, ?_⟩
  · intro h
    simp [getItemByBarcodeOrID, h]
  · intro h
    simp [getItemByBarcodeOrID, h]
  · intro h h2
    simp [getItemByBarcodeOrID, h, h2]
  · intro h h2
    simp [getItemByBarcodeOrID, h, h2]

/-- Witness for C3: barcode "9999" (not identifier-shaped) is absent from
the scenario store, and the identifier-shaped string of 24 hex characters
matches no stored `_id`; both lookups report "Item not found". -/
theorem getItem_routing_and_not_found_witness :
    getItemByBarcodeOrID [sampleItem] "9999" = ⟨false, "Item not found", none⟩ ∧
    getItemByBarcodeOrID [sampleItem] "0123456789abcdef01234567" =
      ⟨false, "Item not found", none⟩ := by
  constructor
  · exact (getItem_routing_and_not_found [sampleItem] "9999").2.2.1 (by decide) (by decide)
  · exact (getItem_routing_and_not_found [sampleItem] "0123456789abcdef01234567").2.2.2
      (by decide) (by decide)

/-! ### Claim C9 -/

/-- Claim C9: for every database state and store identifier,
`getInventory` succeeds and returns exactly the store partition's
document list (which the storage model keeps in insertion order, since
`insertOne` appends); in particular on an empty or never-touched store it
returns success with an empty product list, not a failure. -/
theorem getInventory_success_full_list (db : Db) (storeId : String) :
    (getInventory db storeId).success = true ∧
    (getInventory db storeId).message = "Items retrieved successfully" ∧
    (getInventory db storeId).products = db (collectionName storeId) ∧
    (db (collectionName storeId) = [] → (getInventory db storeId).products = []) := by
  exact ⟨rfl, rfl, rfl, fun h => h⟩

/-- Witness for C9: the never-touched store "7" of an empty database. -/
theorem getInventory_success_full_list_witness :
    (getInventory (fun _ => []) "7").success = true ∧
    (getInventory (fun _ => []) "7").products = [] :=
  ⟨(getInventory_success_full_list (fun _ => []) "7").1,
   (getInventory_success_full_list (fun _ => []) "7").2.2.2 rfl⟩

/-! ### Claim C10 -/

theorem isHexChar_of_isDigit (c : Char) (h : c.isDigit = true) :
    isHexChar c = true := by
  simp [isHexChar, h]

/-- Claim C10: `ObjectId.isValid` accepts every 12-character string and
every 24-character hex string, so an all-digit barcode of exactly 12 or
24 characters is classified as identifier-shaped; `getItemByBarcodeOrID`
then performs only the `_id` lookup, and a stored item carrying that
barcode (but a different `_id`) is unreachable by barcode — the call
returns "Item not found". -/
theorem digit_barcode_of_oid_length_unreachable (st : StoreCol) (b : String)
    (hdig : b.data.all Char.isDigit = true) (hlen : b.length = 12 ∨ b.length = 24)
    (_hmem : ∃ r ∈ st, r.barcode = b) (hid : findOneById st b = none) :
    objectIdIsValid b = true ∧
    getItemByBarcodeOrID st b = ⟨false, "Item not found", none⟩ := by
  have hvalid : objectIdIsValid b = true := by
    rcases hlen with h12 | h24
    · simp [objectIdIsValid, h12]
    · have hhex : b.data.all isHexChar = true := by
        rw [List.all_eq_true] at hdig ⊢
        exact fun c hc => isHexChar_of_isDigit c (hdig c hc)
      simp [objectIdIsValid, h24, hhex]
  refine ⟨hvalid, ?_⟩
  simp [getItemByBarcodeOrID, hvalid, hid]

/-- Witness for C10: the store holds an item with the 12-digit barcode
"123456789012" and no `_id`, yet `getItemByBarcodeOrID` on that very
barcode reports "Item not found". -/
theorem digit_barcode_of_oid_length_unreachable_witness :
    getItemByBarcodeOrID [{ sampleItem with barcode := "123456789012" }]
      "123456789012" = ⟨false, "Item not found", none⟩ :=
  (digit_barcode_of_oid_length_unreachable
    [{ sampleItem with barcode := "123456789012" }] "123456789012"
    (by decide) (Or.inl (by decide))
    ⟨{ sampleItem with barcode := "123456789012" }, by simp, rfl⟩ rfl).2

/-! ### Claim C4 -/

/-- A sequence of `addItem` calls applied one after the other (any
serialisation of the atomic `$inc` applications). -/
def addMany (st : StoreCol) (ps : List Inventory) : StoreCol :=
  ps.foldl (fun s p => (addItem s p).1) st

theorem findOne_addMany (b : String) (ps : List Inventory) :
    ∀ (st : StoreCol) (r : Inventory), findOne st b = some r →
      (∀ q ∈ ps, q.barcode = b) →
      findOne (addMany st ps) b =
        some { r with stock := r.stock + (ps.map Inventory.stock).sum } := by
  induction ps with
  | nil =>
    intro st r h _
    simpa using h
  | cons q qs ih =>
    intro st r h hb
    have hq : q.barcode = b := hb q (by simp)
    have hfind : findOne st q.barcode = some r := by rw [hq]; exact h
    have hstep : (addItem st q).1 = updateOneIncStock st q.barcode q.stock := by
      simp [addItem, hfind]
    have hfound : findOne (addItem st q).1 b = some { r with stock := r.stock + q.stock } := by
      rw [hstep, hq]
      exact findOne_updateOneIncStock st b q.stock r h
    have := ih (addItem st q).1 { r with stock := r.stock + q.stock } hfound
      (fun x hx => hb x (by simp [hx]))
    show findOne (addMany (addItem st q).1 qs) b = _
    rw [this]
    simp [add_assoc]

/-- Claim C4: with a record for barcode `b` present (base stock `s`),
applying `N` `addItem` increments of the same delta `d` yields final
stock `s + N * d`; and for any multiset of increments (any list of
payloads for `b` and any permutation of it — i.e. any order of the
atomically applied increments) the resulting store state is identical, so
the order of increments never changes the final total. -/
theorem addItem_increments_commute (st : StoreCol) (b : String) (r : Inventory)
    (h : findOne st b = some r) :
    (∀ (N : Nat) (p : Inventory), p.barcode = b →
      findOne (addMany st (List.replicate N p)) b =
        some { r with stock := r.stock + (N : Int) * p.stock }) ∧
    (∀ ps qs : List Inventory, ps.Perm qs → (∀ x ∈ ps, x.barcode = b) →
      findOne (addMany st ps) b = findOne (addMany st qs) b) := by
  constructor
  · intro N p hp
    have hball : ∀ q ∈ List.replicate N p, q.barcode = b := by
      intro q hq
      rw [List.eq_of_mem_replicate hq]
      exact hp
    rw [findOne_addMany b (List.replicate N p) st r h hball]
    congr 1
    rw [List.map_replicate, List.sum_replicate]
    rw [nsmul_eq_mul]
  · intro ps qs hperm hball
    have hball2 : ∀ x ∈ qs, x.barcode = b := fun x hx => hball x (hperm.mem_iff.mpr hx)
    rw [findOne_addMany b ps st r h hball, findOne_addMany b qs st r h hball2]
    have hsum : (ps.map Inventory.stock).sum = (qs.map Inventory.stock).sum :=
      (hperm.map Inventory.stock).sum_eq
    rw [hsum]

/-- Witness for C4: from base stock 10 for barcode "1001", three
increments of 5 end at 10 + 3 * 5 = 25, and the interleaving orders
[5, 7] and [7, 5] of two distinct increments reach the same state. -/
theorem addItem_increments_commute_witness :
    findOne (addMany [sampleItem] (List.replicate 3 sampleIncrement)) "1001" =
      some { sampleItem with stock := 10 + (3 : Int) * 5 } ∧
    findOne (addMany [sampleItem] [sampleIncrement, { sampleItem with stock := 7 }]) "1001" =
      findOne (addMany [sampleItem] [{ sampleItem with stock := 7 }, sampleIncrement]) "1001" := by
  constructor
  · exact (addItem_increments_commute [sampleItem] "1001" sampleItem rfl).1 3
      sampleIncrement rfl
  · exact (addItem_increments_commute [sampleItem] "1001" sampleItem rfl).2
      [sampleIncrement, { sampleItem with stock := 7 }]
      [{ sampleItem with stock := 7 }, sampleIncrement]
      (List.Perm.swap _ _ _) (by decide)

/-! ### Claim C5 -/

/-- Claim C5 (against the spec-modelled orchestration
`addItemWithCatalogSeed`): when the store has no local record for the
payload's barcode — on a catalog hit, the Ledger seeds the local record's
`name` and `description` from the catalog before proceeding, inserting
exactly one record that otherwise carries the payload's fields
(in particular its `stock`), and succeeds; on a catalog miss or lookup
failure it proceeds using only payload-supplied fields, inserting the
payload verbatim, leaving the store-local state uncorrupted (exactly the
old records plus the one new record), and succeeds. -/
theorem addItem_catalog_seeding (lookup : String → Option CatalogRecord)
    (st : StoreCol) (p : Inventory) (h : findOne st p.barcode = none) :
    (∀ c, lookup p.barcode = some c →
      (addItemWithCatalogSeed lookup st p).1 =
        st ++ [{ p with name := c.name, description := c.description }] ∧
      (addItemWithCatalogSeed lookup st p).2.success = true) ∧
    (lookup p.barcode = none →
      (addItemWithCatalogSeed lookup st p).1 = st ++ [p] ∧
      (addItemWithCatalogSeed lookup st p).2.success = true) := by
  constructor
  · intro c hc
    constructor
    · simp [addItemWithCatalogSeed, h, hc, addItem, insertOne]
    · simp [addItemWithCatalogSeed, h, hc, addItem]
  · intro hc
    constructor
    · simp [addItemWithCatalogSeed, h, hc, addItem, insertOne]
    · simp [addItemWithCatalogSeed, h, hc, addItem]

/-- Witness for C5: a catalog knowing barcode "1001" seeds the new local
record's name and description; an empty catalog leaves the payload
untouched. -/
theorem addItem_catalog_seeding_witness :
    (addItemWithCatalogSeed
        (fun b => if b = "1001" then some ⟨"Cola", "soda"⟩ else none)
        [] sampleItem).1 =
      [{ sampleItem with name := "Cola", description := "soda" }] ∧
    (addItemWithCatalogSeed (fun _ => none) [] sampleItem).1 = [sampleItem] := by
  constructor
  · exact ((addItem_catalog_seeding
      (fun b => if b = "1001" then some ⟨"Cola", "soda"⟩ else none)
      [] sampleItem rfl).1 ⟨"Cola", "soda"⟩ (by simp [sampleItem])).1
  · exact ((addItem_catalog_seeding (fun _ => none) [] sampleItem rfl).2 rfl).1

/-! ### Claim C2 -/

/-- Claim C2 is refuted by the code: `addItem` is a client-side
read-then-write, the sequential composition of its `findOne` read phase
and its insert-or-increment write phase (first conjunct, for every state
and payload); under the interleaving read₁ read₂ write₁ write₂ of two
`addItem` calls for the new barcode "1001" on an empty store partition,
both calls observe absence and both execute the insert branch, leaving
two records with barcode "1001" in the partition (second conjunct). -/
theorem addItem_read_then_write_race :
    (∀ (st : StoreCol) (p : Inventory),
      addItemWrite st p (addItemRead st p.barcode) = (addItem st p).1) ∧
    countBarcode (racedAddState [] sampleItem sampleIncrement) "1001" = 2 := by
  constructor
  · intro st p
    cases h : findOne st p.barcode with
    | none => simp [addItemWrite, addItemRead, addItem, h]
    | some r => simp [addItemWrite, addItemRead, addItem, h]
  · decide

/-! ### Claim C6 -/

/-- Claim C6's `updated_at` clause is refuted by the code: on the spec's
scenario the increment path leaves the record's `updated_at` (and
`created_at`, and every field other than `stock`) exactly as it was —
the `$inc` update touches only `stock`, so `updated_at` stays 100 even
though the second add carries time 999.  The instantiation path does set
`created_at` and `updated_at` once, both to the creation time, and the
insert branch stores them verbatim, never to be touched again by
increments. -/
theorem addItem_increment_keeps_updated_at :
    (addItem [sampleItem] sampleIncrement).1 = [{ sampleItem with stock := 15 }] ∧
    ({ sampleItem with stock := 15 } : Inventory).updated_at = 100 ∧
    ({ sampleItem with stock := 15 } : Inventory).created_at = 100 ∧
    sampleIncrement.updated_at = 999 ∧
    instantiateItem "1001" "Cola" "" 2 10 "" 100 [] = sampleItem := by
  refine ⟨?_, rfl, rfl, rfl, rfl⟩
  decide

/-! ### Claim C7 -/

/-- Claim C7: `validateItemData` rejects barcode "12a4" with the custom
message naming `barcode` and its expected pattern; accepts barcode
"1234"; rejects a payload missing `name` with a message naming `name`;
accepts a payload whose `description` and `supplier` are empty strings
(the accepted `validPayload` has both empty); and every failing payload's
result is `success := false` together with the first schema-reported
violation as its message (never a fatal error — the function is total
and always returns this structured shape). -/
theorem validateItemData_gate :
    validateItemData { validPayload with barcode := some "12a4" } =
      ⟨false, some "\x27barcode\x27 must be a string of numbers"⟩ ∧
    validateItemData validPayload = ⟨true, none⟩ ∧
    validPayload.description = some "" ∧
    validPayload.supplier = some "" ∧
    validateItemData { validPayload with name := none } =
      ⟨false, some "\"name\" is required"⟩ ∧
    (∀ d : ItemPayload, (validateItemData d).success = false →
      (validateItemData d).message = itemDataError d ∧
      (validateItemData d).message.isSome = true) := by
  refine ⟨by decide, by decide, rfl, rfl, by decide, ?_⟩
  intro d h
  cases hm : itemDataError d with
  | none => simp [validateItemData, hm] at h
  | some m => simp [validateItemData, hm]

/-- Witness for C7: the payload missing `name` fails, and its failure
carries the schema's first violation as a message. -/
theorem validateItemData_gate_witness :
    (validateItemData { validPayload with name := none }).message =
      itemDataError { validPayload with name := none } ∧
    (validateItemData { validPayload with name := none }).message.isSome = true :=
  validateItemData_gate.2.2.2.2.2 { validPayload with name := none } (by decide)

/-! ### Claim C8 -/

/-- Claim C8 is refuted by the code: the Joi item schema accepts a
variants entry carrying only `name`, but rejects the data model's own
`Variant` shape — a variants entry carrying `name` together with `price`
and `stock` fails validation, because the per-entry schema
`Joi.object({ name: Joi.string().required() })` leaves `price` and
`stock` unknown keys, which Joi's defaults reject ("is not allowed"). -/
theorem validateItemData_rejects_variant_shape :
    validateItemData { validPayload with variants := some [{ name := some "Small" }] } =
      ⟨true, none⟩ ∧
    validateItemData { validPayload with variants := some [fullVariantPayload] } =
      ⟨false, some "\"variants[0].price\" is not allowed"⟩ := by
  constructor
  · decide
  · decide

end ToadVault
